import Mathlib

/-!
Shallow embedding of the voxerion-calendar access-resolution and
assistant-polling layer.

Sources embedded here:
* `src/unnamed/part_001` (`makeOpenAIRequest`, `AUTH_CONFIG`, `generateInsights`)
* `src/src/calendar.js` (`makeOpenAIRequest`, simpler variant)
* `src/src/1-databaseManager.gs` (`DatabaseOperations`, `VoxerionDatabase`)
* `src/src/3-calendar.gs` (`DatabaseManager.makeApiRequest`,
  `discoverEndpoints`, `autoDiscoverApi`)
-/

namespace Voxerion

/-! ## Assistant polling loop (`makeOpenAIRequest`, part_001 lines 371-463)

The loop body runs inside `try { ... } catch (error) { if (attempts >=
maxAttempts) throw error; }` and the do-while condition is `attempts <
maxAttempts`.  Each iteration consumes one backend "poll event": either the
status fetch (or JSON parse) throws, or it yields an HTTP code plus, when the
code is 200, the parsed run status, the optional `last_error.message`, and -
relevant only when the status is `completed` - the outcome of the follow-up
messages fetch. -/

/-- Constant `AUTH_CONFIG.MAX_RETRIES` (part_001 line 10); `maxAttempts` in
both polling variants. -/
def MAX_RETRIES : Nat := 7

/-- Outcome of the messages fetch performed when a poll reports `completed`. -/
inductive MsgsOutcome where
  /-- HTTP 200 and `messages.data[0].content[0].text.value` present. -/
  | okText (text : String)
  /-- non-200 response to the messages fetch (throws inside the try). -/
  | httpErr (code : Nat)
  /-- Malformed body (`messages.data` or `content` missing): the code throws
  `Invalid message format received`. -/
  | badFormat
  deriving DecidableEq, Repr

/-- Backend behaviour of one poll iteration. -/
inductive PollEvent where
  /-- the status fetch itself (or `JSON.parse`) raises an exception. -/
  | thrown
  /-- the status fetch returns HTTP `code`; when `code = 200` the body parsed
  to `status`, `lastError` (= `last_error?.message`), and `msgs` is what the
  messages fetch would return if attempted. -/
  | response (code : Nat) (status : String) (lastError : Option String)
      (msgs : MsgsOutcome)
  deriving DecidableEq, Repr

/-- How one run of the loop ends, as seen by the caller of
`makeOpenAIRequest`. -/
inductive PollOutcome where
  /-- the extracted text is returned. -/
  | success (text : String)
  /-- the catch rethrows an error (`if (attempts >= maxAttempts) throw`). -/
  | raised (msg : String)
  /-- the loop exits and `Timeout after ... Last status:` is thrown. -/
  | timedOut (lastStatus : Option String)
  deriving DecidableEq, Repr

/-- The `catch (error)` block: rethrow only when `attempts >= maxAttempts`,
otherwise swallow the error and leave `attempts` unchanged. -/
def pollCatch (maxAttempts attempts : Nat) (lastStatus : Option String)
    (msg : String) : (Nat × Option String) ⊕ PollOutcome :=
  if maxAttempts ≤ attempts then Sum.inr (PollOutcome.raised msg)
  else Sum.inl (attempts, lastStatus)

/-- One iteration of the do-while body of `makeOpenAIRequest` (part_001):
`Sum.inl (attempts, runStatus)` means the loop continues with that state,
`Sum.inr out` means the function terminates with `out`. -/
def pollStep (maxAttempts attempts : Nat) (lastStatus : Option String) :
    PollEvent → (Nat × Option String) ⊕ PollOutcome
  | PollEvent.thrown => pollCatch maxAttempts attempts lastStatus "fetch threw"
  | PollEvent.response code status lastError msgs =>
    if code ≠ 200 then
      -- `console.warn(...); attempts++; continue;`
      Sum.inl (attempts + 1, lastStatus)
    else if status = "completed" then
      match msgs with
      | MsgsOutcome.okText text => Sum.inr (PollOutcome.success text)
      | MsgsOutcome.httpErr _ =>
        pollCatch maxAttempts attempts (some status)
          "Failed to retrieve messages"
      | MsgsOutcome.badFormat =>
        pollCatch maxAttempts attempts (some status)
          "Invalid message format received"
    else if status = "failed" then
      pollCatch maxAttempts attempts (some status)
        (lastError.getD "Run failed without specific error")
    else
      Sum.inl (attempts + 1, some status)

/-- The do-while loop, fuelled: `events i` is the behaviour of the backend on the
`i`-th poll; `none` means the fuel ran out with the loop still running (so the
real loop has already performed `fuel` iterations without terminating). -/
def pollRun (events : Nat → PollEvent) (maxAttempts : Nat) :
    Nat → Nat → Option String → Nat → Option PollOutcome
  | 0, _, _, _ => none
  | fuel + 1, attempts, lastStatus, i =>
    match pollStep maxAttempts attempts lastStatus (events i) with
    | Sum.inr out => some out
    | Sum.inl (a', ls') =>
      if a' < maxAttempts then pollRun events maxAttempts fuel a' ls' (i + 1)
      else some (PollOutcome.timedOut ls')

/-- Polling phase of `makeOpenAIRequest`: start with `attempts = 0`, no status
seen, reading events from index 0. -/
def makeOpenAIRequestPoll (events : Nat → PollEvent) (fuel : Nat) :
    Option PollOutcome :=
  pollRun events MAX_RETRIES fuel 0 none 0

/-! ## Backoff schedule (`makeOpenAIRequest.getRetryDelay`, part_001
lines 376-379)

`Math.min(500 * Math.pow(1.5, attempt), 5000)`, in milliseconds, modelled
over the exact rationals. -/

/-- Function `getRetryDelay(attempt)` from the optimized polling variant. -/
def getRetryDelay (attempt : Nat) : ℚ :=
  min (500 * (3 / 2 : ℚ) ^ attempt) 5000

/-! ## Database layer (`1-databaseManager.gs`)

`DatabaseOperations.getUserByEmail` (lines 157-245) layers a 30-minute
script cache over a cascade of backend strategies (existing-token entity
query, default-auth retry of the same query, direct
`/api/users/email/{email}` request); every strategy resolves the same
logical users lookup, and the exceptions of each strategy are caught inline,
so the combined outcome of the cascade is a single lookup result: found (the record
is cached for 1800 s and returned), not found after all strategies (the
cache entry is removed and `null` returned), or an exception absorbed en
route to the same `null`.  `DatabaseOperations.getCompanyById` (lines
48-57) forwards to the backend with no cache and returns `null` on any
error. -/

/-- A single user record as returned by the backend. -/
structure User where
  id : String
  email : String
  company_id : String
  role : String
  deriving DecidableEq, Repr

/-- A single company record as returned by the backend. -/
structure Company where
  company_id : String
  assistant_id : String
  status : String
  deriving DecidableEq, Repr

/-- Composed return object of `VoxerionDatabase.getUserAccessDetails`. -/
structure AccessDetails where
  userId : String
  companyId : String
  assistantId : String
  role : String
  status : String
  deriving DecidableEq, Repr

/-- Outcome of one backend lookup: a record, a not-found answer, or a
thrown exception (network error, malformed response, ...). -/
inductive LookupResult (α : Type) where
  | found (a : α)
  | notFound
  | threw
  deriving DecidableEq, Repr

/-- The backend as seen through `this.db`: the users-by-email lookup (the
shared target of the cascade) and the companies-by-id lookup. -/
structure Backend where
  users : String → LookupResult User
  companies : String → LookupResult Company

/-- The script cache: key to cached user record and absolute expiry time
(seconds).  The code stores `JSON.stringify(user)` and parses it back;
serialization of a plain record round-trips structurally, so the cache is
modelled as holding the record itself. -/
def Cache : Type := String → Option (User × Nat)

/-- Model of `cache.get(key)` at time `now`: a hit only while the entry is
unexpired. -/
def cacheGet (c : Cache) (now : Nat) (key : String) : Option User :=
  match c key with
  | some (u, expiry) => if now < expiry then some u else none
  | none => none

/-- Model of `cache.put(key, value, ttl)` at time `now`. -/
def cachePut (c : Cache) (now : Nat) (key : String) (u : User) (ttl : Nat) :
    Cache :=
  fun k => if k = key then some (u, now + ttl) else c k

/-- Model of `cache.remove(key)`. -/
def cacheRemove (c : Cache) (key : String) : Cache :=
  fun k => if k = key then none else c k

/-- Mutable state threaded through the database operations: the script
cache plus counters of how many backend requests each lookup kind has
issued. -/
structure DbState where
  cache : Cache
  userBackendCalls : Nat
  companyBackendCalls : Nat

/-- The empty initial state. -/
def initialDbState : DbState :=
  { cache := fun _ => none, userBackendCalls := 0, companyBackendCalls := 0 }

/-- Cache key `` `USER_${email.replace(/[^a-zA-Z0-9]/g, _)}` `` (line 163,
underscore as the replacement): every
non-alphanumeric character of the email is replaced by an underscore. -/
def userCacheKey (email : String) : String :=
  "USER_" ++
    String.mk (email.data.map (fun ch => if ch.isAlphanum then ch else '_'))

/-- Model of `DatabaseOperations.getUserByEmail(email, skipCache)` (lines
157-245):
empty email is rejected up front; unless `skipCache`, a valid cache entry
under `userCacheKey email` is returned directly; otherwise the backend
cascade runs: a found record is cached for 1800 s and returned, while a
not-found or thrown cascade removes the cache entry and yields `null`. -/
def getUserByEmail (b : Backend) (now : Nat) (st : DbState) (email : String)
    (skipCache : Bool) : Option User × DbState :=
  if email = "" then (none, st)
  else
    let key := userCacheKey email
    let fromBackend : Option User × DbState :=
      let st1 : DbState :=
        { st with userBackendCalls := st.userBackendCalls + 1 }
      match b.users email with
      | LookupResult.found u =>
        (some u, { st1 with cache := cachePut st1.cache now key u 1800 })
      | LookupResult.notFound =>
        (none, { st1 with cache := cacheRemove st1.cache key })
      | LookupResult.threw =>
        (none, { st1 with cache := cacheRemove st1.cache key })
    if skipCache then fromBackend
    else
      match cacheGet st.cache now key with
      | some u => (some u, st)
      | none => fromBackend

/-- Model of `DatabaseOperations.getCompanyById(companyId)` (lines 48-57): a plain
backend call, `null` on error, no cache. -/
def getCompanyById (b : Backend) (st : DbState) (companyId : String) :
    Option Company × DbState :=
  let st1 : DbState :=
    { st with companyBackendCalls := st.companyBackendCalls + 1 }
  match b.companies companyId with
  | LookupResult.found c => (some c, st1)
  | LookupResult.notFound => (none, st1)
  | LookupResult.threw => (none, st1)

/-- Model of `VoxerionDatabase.getUserAccessDetails(email, skipCache)` (lines
333-365): user lookup, then company lookup by the `company_id` of the user,
then the composed `{userId, companyId, assistantId, role, status}`; `null`
as soon as either lookup yields nothing (the surrounding try/catch turns
any escaped exception into `null` as well). -/
def getUserAccessDetails (b : Backend) (now : Nat) (st : DbState)
    (email : String) (skipCache : Bool) : Option AccessDetails × DbState :=
  match getUserByEmail b now st email skipCache with
  | (none, st1) => (none, st1)
  | (some u, st1) =>
    match getCompanyById b st1 u.company_id with
    | (none, st2) => (none, st2)
    | (some c, st2) =>
      (some { userId := u.id, companyId := c.company_id,
              assistantId := c.assistant_id, role := u.role,
              status := c.status }, st2)

/-- Authorization gate of `generateInsights` (part_001 lines 602-618): the
unregistered-user card is returned when `userAccess` is `null` or
`userAccess.assistantId` is falsy (absent assistant id, modelled as the
empty string); nothing else about the access bundle is inspected. -/
def insightsAuthorized (userAccess : Option AccessDetails) : Bool :=
  match userAccess with
  | none => false
  | some a => a.assistantId ≠ ""

/-- The first component of `getCompanyById` depends only on the answer of
the backend, not on the threaded state. -/
theorem getCompanyById_fst (b : Backend) (st : DbState) (cid : String) :
    (getCompanyById b st cid).1 =
      match b.companies cid with
      | LookupResult.found c => some c
      | LookupResult.notFound => none
      | LookupResult.threw => none := by
  unfold getCompanyById
  cases b.companies cid <;> rfl

/-- Lemma: `getCompanyById` leaves the cache and the user-call counter untouched
and bumps the company-call counter by one. -/
theorem getCompanyById_state (b : Backend) (st : DbState) (cid : String) :
    (getCompanyById b st cid).2.cache = st.cache ∧
    (getCompanyById b st cid).2.userBackendCalls = st.userBackendCalls ∧
    (getCompanyById b st cid).2.companyBackendCalls =
      st.companyBackendCalls + 1 := by
  unfold getCompanyById
  cases b.companies cid <;> exact ⟨rfl, rfl, rfl⟩

/-- Event stream in which every run-status poll reports status `failed` with
`last_error.message = "rate_limited"`. -/
def failedRateLimitedEvents : Nat → PollEvent := fun _ =>
  PollEvent.response 200 "failed" (some "rate_limited") MsgsOutcome.badFormat

/-- C1: a backend whose status fetch throws on every poll keeps the loop
running forever: the `catch` swallows the error without incrementing
`attempts` (its `attempts >= maxAttempts` rethrow guard never fires, since
`attempts ≤ 6` whenever the body runs), so after any number `fuel` of
iterations the loop is still running (`none`) and never reaches an outcome -
contradicting the claim that at most 7 poll iterations happen before
termination. -/
theorem C1_polling_unbounded_on_thrown_fetch :
    ∀ fuel : Nat,
      makeOpenAIRequestPoll (fun _ => PollEvent.thrown) fuel = none := by
  have h : ∀ fuel i,
      pollRun (fun _ => PollEvent.thrown) MAX_RETRIES fuel 0 none i = none := by
    intro fuel
    induction fuel with
    | zero => intro i; rfl
    | succ n ih =>
      intro i
      simp only [pollRun, pollStep, pollCatch, MAX_RETRIES]
      norm_num
      exact ih (i + 1)
  intro fuel
  exact h fuel 0

/-- C3: when every poll reports run status `failed` with
`last_error.message = "rate_limited"`, the `throw new
Error(statusData.last_error?.message ...)` is caught by the catch block of
the loop itself and swallowed (`attempts` stays below `maxAttempts` and is never
incremented on this path), so the loop never terminates: no outcome - in
particular no raised error containing `rate_limited` - ever reaches the
caller. -/
theorem C3_failed_status_error_never_raised :
    ∀ (fuel i : Nat) (lastStatus : Option String),
      pollRun failedRateLimitedEvents MAX_RETRIES fuel 0 lastStatus i =
        none := by
  intro fuel
  induction fuel with
  | zero => intro i ls; rfl
  | succ n ih =>
    intro i ls
    simp only [pollRun, pollStep, pollCatch, failedRateLimitedEvents,
      MAX_RETRIES]
    norm_num
    exact ih (i + 1) (some "failed")

/-- C6: the optimized-variant backoff delay `min(500 * 1.5^attempt, 5000)`
is non-decreasing in the attempt index and bounded above by the 5000 ms
cap. -/
theorem C6_backoff_monotone_and_capped :
    (∀ a1 a2 : Nat, a1 ≤ a2 → getRetryDelay a1 ≤ getRetryDelay a2) ∧
    ∀ a : Nat, getRetryDelay a ≤ 5000 := by
  constructor
  · intro a1 a2 h
    unfold getRetryDelay
    refine min_le_min ?_ le_rfl
    gcongr
    · norm_num
  · intro a
    exact min_le_right _ _

/-- Witness for C6 at concrete attempt indices 2 ≤ 3 and 5. -/
theorem C6_backoff_witness :
    (2 : Nat) ≤ 3 ∧ getRetryDelay 2 ≤ getRetryDelay 3 ∧
      getRetryDelay 5 ≤ 5000 :=
  ⟨by decide, C6_backoff_monotone_and_capped.1 2 3 (by decide),
    C6_backoff_monotone_and_capped.2 5⟩

/-- C2: `getUserAccessDetails(e)` is `null` exactly when the user lookup
yields nothing or the company lookup by the `company_id` of the found user
yields nothing; when both resolve it returns the composed
`{userId, companyId, assistantId, role, status}` object. -/
theorem C2_access_details_null_iff :
    ∀ (b : Backend) (now : Nat) (st : DbState) (email : String)
      (skipCache : Bool),
      ((getUserAccessDetails b now st email skipCache).1 = none ↔
        ((getUserByEmail b now st email skipCache).1 = none ∨
          ∃ u : User,
            (getUserByEmail b now st email skipCache).1 = some u ∧
            (getCompanyById b (getUserByEmail b now st email skipCache).2
              u.company_id).1 = none)) ∧
      (∀ (u : User) (c : Company),
        (getUserByEmail b now st email skipCache).1 = some u →
        (getCompanyById b (getUserByEmail b now st email skipCache).2
          u.company_id).1 = some c →
        (getUserAccessDetails b now st email skipCache).1 =
          some { userId := u.id, companyId := c.company_id,
                 assistantId := c.assistant_id, role := u.role,
                 status := c.status }) := by
  intro b now st email skipCache
  rcases hu : getUserByEmail b now st email skipCache with ⟨uo, st1⟩
  rcases uo with _ | u
  · constructor
    · simp [getUserAccessDetails, hu]
    · intro u c h1 _
      simp [hu] at h1
  · rcases hc : getCompanyById b st1 u.company_id with ⟨co, st2⟩
    rcases co with _ | c
    · constructor
      · constructor
        · intro _
          refine Or.inr ⟨u, ?_, ?_⟩
          · simp [hu]
          · simp [hu, hc]
        · intro _
          simp [getUserAccessDetails, hu, hc]
      · intro u' c' h1 h2
        simp [hu] at h1
        subst h1
        simp [hu, hc] at h2
    · constructor
      · constructor
        · intro habs
          simp [getUserAccessDetails, hu, hc] at habs
        · rintro (h1 | ⟨u', h1, h2⟩)
          · simp [hu] at h1
          · simp [hu] at h1
            subst h1
            simp [hu, hc] at h2
      · intro u' c' h1 h2
        simp [hu] at h1
        subst h1
        simp [hu] at h2
        rw [hc] at h2
        simp at h2
        subst h2
        simp [getUserAccessDetails, hu, hc]

/-- Witness for C2: the spec scenario - user `a@acme.com` at company
`acme` with `assistantId = "asst_123"`, `status = "active"` resolves to
the composed bundle. -/
theorem C2_access_details_witness :
    (getUserAccessDetails
        { users := fun e =>
            if e = "a@acme.com"
            then LookupResult.found ⟨"u1", "a@acme.com", "acme", "user"⟩
            else LookupResult.notFound,
          companies := fun cid =>
            if cid = "acme"
            then LookupResult.found ⟨"acme", "asst_123", "active"⟩
            else LookupResult.notFound }
        0 initialDbState "a@acme.com" false).1 =
      some { userId := "u1", companyId := "acme", assistantId := "asst_123",
             role := "user", status := "active" } :=
  (C2_access_details_null_iff _ 0 initialDbState "a@acme.com" false).2
    ⟨"u1", "a@acme.com", "acme", "user"⟩ ⟨"acme", "asst_123", "active"⟩
    (by decide) (by decide)

/-- C7: whatever the failure - the user lookup throws or finds nothing
(with no valid cache entry shielding it), or every company lookup throws
or finds nothing - `getUserAccessDetails` evaluates to `null`, a value,
rather than letting the exception escape. -/
theorem C7_resolve_failure_yields_null :
    ∀ (b : Backend) (now : Nat) (st : DbState) (email : String)
      (skipCache : Bool),
      (((skipCache = true ∨
          cacheGet st.cache now (userCacheKey email) = none) ∧
        (b.users email = LookupResult.threw ∨
          b.users email = LookupResult.notFound)) ∨
        (∀ u : User,
          b.companies u.company_id = LookupResult.threw ∨
          b.companies u.company_id = LookupResult.notFound)) →
      (getUserAccessDetails b now st email skipCache).1 = none := by
  intro b now st email skipCache h
  rcases hu : getUserByEmail b now st email skipCache with ⟨uo, st1⟩
  rcases uo with _ | u
  · simp [getUserAccessDetails, hu]
  · rcases h with ⟨hcache, hback⟩ | hcomp
    · exfalso
      by_cases he : email = ""
      · simp [getUserByEmail, he] at hu
      · rcases hback with hb | hb
        · rcases hcache with hsk | hcg
          · subst hsk
            simp [getUserByEmail, he, hb] at hu
          · cases hsk : skipCache
            · simp [getUserByEmail, he, hsk, hcg, hb] at hu
            · simp [getUserByEmail, he, hsk, hb] at hu
        · rcases hcache with hsk | hcg
          · subst hsk
            simp [getUserByEmail, he, hb] at hu
          · cases hsk : skipCache
            · simp [getUserByEmail, he, hsk, hcg, hb] at hu
            · simp [getUserByEmail, he, hsk, hb] at hu
    · rcases hc : getCompanyById b st1 u.company_id with ⟨co, st2⟩
      rcases co with _ | c
      · simp [getUserAccessDetails, hu, hc]
      · exfalso
        have := getCompanyById_fst b st1 u.company_id
        rw [hc] at this
        rcases hcomp u with hk | hk <;> rw [hk] at this <;> simp at this

/-- Witness for C7: a backend whose every lookup throws makes
`getUserAccessDetails` return `null`. -/
theorem C7_resolve_failure_witness :
    (getUserAccessDetails
        { users := fun _ => LookupResult.threw,
          companies := fun _ => LookupResult.threw }
        0 initialDbState "a@acme.com" true).1 = none :=
  C7_resolve_failure_yields_null _ 0 initialDbState "a@acme.com" true
    (Or.inl ⟨Or.inl rfl, Or.inl rfl⟩)

/-- C9: whenever user and company both resolve, the access bundle is
returned with whatever `company.status` holds - no status value is
filtered - and the `generateInsights` gate looks only at the presence of
the bundle and of its `assistantId`: its verdict is invariant under any
change of the `status` field. -/
theorem C9_company_status_never_checked :
    (∀ (b : Backend) (now : Nat) (st : DbState) (email : String)
        (skipCache : Bool) (u : User) (c : Company),
      (getUserByEmail b now st email skipCache).1 = some u →
      b.companies u.company_id = LookupResult.found c →
      (getUserAccessDetails b now st email skipCache).1 =
        some { userId := u.id, companyId := c.company_id,
               assistantId := c.assistant_id, role := u.role,
               status := c.status }) ∧
    (∀ (a : AccessDetails) (s1 s2 : String),
      insightsAuthorized (some { a with status := s1 }) =
        insightsAuthorized (some { a with status := s2 })) ∧
    (∀ a : AccessDetails,
      insightsAuthorized (some a) = decide (a.assistantId ≠ "")) ∧
    insightsAuthorized none = false := by
  refine ⟨?_, ?_, ?_, rfl⟩
  · intro b now st email skipCache u c h1 h2
    rcases hu : getUserByEmail b now st email skipCache with ⟨uo, st1⟩
    rw [hu] at h1
    simp at h1
    subst h1
    rcases hc : getCompanyById b st1 u.company_id with ⟨co, st2⟩
    have hfst := getCompanyById_fst b st1 u.company_id
    rw [hc, h2] at hfst
    simp at hfst
    subst hfst
    simp [getUserAccessDetails, hu, hc]
  · intro a s1 s2
    rfl
  · intro a
    rfl

/-- Suspended-company fixture for the C9 witness. -/
def suspendedBackend : Backend :=
  { users := fun e =>
      if e = "a@acme.com"
      then LookupResult.found ⟨"u1", "a@acme.com", "acme", "user"⟩
      else LookupResult.notFound,
    companies := fun cid =>
      if cid = "acme"
      then LookupResult.found ⟨"acme", "asst_123", "suspended"⟩
      else LookupResult.notFound }

/-- Witness for C9: with `status = "suspended"` the bundle is still
returned and the insight gate still passes. -/
theorem C9_company_status_witness :
    (getUserAccessDetails suspendedBackend 0 initialDbState
        "a@acme.com" true).1 =
      some { userId := "u1", companyId := "acme", assistantId := "asst_123",
             role := "user", status := "suspended" } ∧
    insightsAuthorized
      (some { userId := "u1", companyId := "acme",
              assistantId := "asst_123", role := "user",
              status := "suspended" }) = true :=
  ⟨C9_company_status_never_checked.1 suspendedBackend 0 initialDbState
      "a@acme.com" true ⟨"u1", "a@acme.com", "acme", "user"⟩
      ⟨"acme", "asst_123", "suspended"⟩ (by decide) (by decide),
    by decide⟩

/-- Fixture for C10: a backend holding distinct records for the two
colliding emails. -/
def collisionBackend : Backend :=
  { users := fun e =>
      if e = "a.b@x.com"
      then LookupResult.found ⟨"u1", "a.b@x.com", "acme", "user"⟩
      else if e = "a_b@x.com"
      then LookupResult.found ⟨"u2", "a_b@x.com", "acme", "user"⟩
      else LookupResult.notFound,
    companies := fun _ => LookupResult.notFound }

/-- C10: `a.b@x.com` and `a_b@x.com` are distinct emails that sanitize to
one cache key; once a lookup of the first populates the cache, a cached
lookup of the second returns the record of the first one, while a lookup of the
second from a fresh state returns its own record - the answer for
`a_b@x.com` depends on whether `a.b@x.com` was looked up first. -/
theorem C10_cache_key_collision :
    ("a.b@x.com" : String) ≠ "a_b@x.com" ∧
    userCacheKey "a.b@x.com" = userCacheKey "a_b@x.com" ∧
    (getUserByEmail collisionBackend 10
        (getUserByEmail collisionBackend 0 initialDbState
          "a.b@x.com" false).2
        "a_b@x.com" false).1 =
      some ⟨"u1", "a.b@x.com", "acme", "user"⟩ ∧
    (getUserByEmail collisionBackend 10 initialDbState
        "a_b@x.com" false).1 =
      some ⟨"u2", "a_b@x.com", "acme", "user"⟩ ∧
    (⟨"u1", "a.b@x.com", "acme", "user"⟩ : User) ≠
      ⟨"u2", "a_b@x.com", "acme", "user"⟩ := by
  refine ⟨by decide, by decide, ?_, by decide, by decide⟩
  decide

/-- A successful cached-mode `getUserByEmail` leaves the returned record in
the cache under the key of the email (either it was just put there with a
1800 s TTL, or it was the serving entry). -/
theorem getUserByEmail_caches (b : Backend) (now : Nat) (st : DbState)
    (email : String) (u : User) (stu : DbState)
    (h : getUserByEmail b now st email false = (some u, stu)) :
    ∃ expiry, stu.cache (userCacheKey email) = some (u, expiry) := by
  by_cases he : email = ""
  · simp [getUserByEmail, he] at h
  · rcases hcg : cacheGet st.cache now (userCacheKey email) with _ | u'
    · rcases hb : b.users email with u'' | _ | _
      · simp [getUserByEmail, he, hcg, hb] at h
        obtain ⟨h1, h2⟩ := h
        subst h1
        refine ⟨now + 1800, ?_⟩
        rw [← h2]
        simp [cachePut]
      · simp [getUserByEmail, he, hcg, hb] at h
      · simp [getUserByEmail, he, hcg, hb] at h
    · simp [getUserByEmail, he, hcg] at h
      obtain ⟨h1, h2⟩ := h
      subst h1
      subst h2
      unfold cacheGet at hcg
      rcases he2 : st.cache (userCacheKey email) with _ | ⟨v, expiry⟩
      · rw [he2] at hcg
        simp at hcg
      · rw [he2] at hcg
        by_cases ht : now < expiry
        · simp [ht] at hcg
          exact ⟨expiry, by simp [he2, hcg]⟩
        · simp [ht] at hcg

/-- A valid cache entry short-circuits `getUserByEmail`: the cached record
is returned and the state is untouched. -/
theorem getUserByEmail_cache_hit (b : Backend) (now : Nat) (st : DbState)
    (email : String) (u : User) (he : ¬ email = "")
    (hcg : cacheGet st.cache now (userCacheKey email) = some u) :
    getUserByEmail b now st email false = (some u, st) := by
  simp [getUserByEmail, he, hcg]

/-- If the cache holds `(u, expiry)` under `key` and a later `get` is a
hit, the hit returns `u`. -/
theorem cacheGet_of_entry (c : Cache) (now : Nat) (key : String) (u : User)
    (expiry : Nat) (hentry : c key = some (u, expiry))
    (hsome : (cacheGet c now key).isSome = true) :
    cacheGet c now key = some u := by
  unfold cacheGet at hsome ⊢
  rw [hentry] at hsome ⊢
  by_cases ht : now < expiry
  · simp [ht]
  · simp [ht] at hsome

/-- Fixture for C4: one user at one company, both resolvable. -/
def oneUserBackend : Backend :=
  { users := fun e =>
      if e = "a@acme.com"
      then LookupResult.found ⟨"u1", "a@acme.com", "acme", "user"⟩
      else LookupResult.notFound,
    companies := fun cid =>
      if cid = "acme"
      then LookupResult.found ⟨"acme", "asst_123", "active"⟩
      else LookupResult.notFound }

/-- Counterexample to C4 as stated: the second cached-mode resolve returns
the identical bundle, but it does issue a backend call - the company
lookup is uncached, so the total backend-call count rises from 2 to 3. -/
theorem C4_counterexample_second_backend_call :
    (getUserAccessDetails oneUserBackend 0 initialDbState
        "a@acme.com" false).1 =
      some { userId := "u1", companyId := "acme", assistantId := "asst_123",
             role := "user", status := "active" } ∧
    (getUserAccessDetails oneUserBackend 10
        (getUserAccessDetails oneUserBackend 0 initialDbState
          "a@acme.com" false).2
        "a@acme.com" false).1 =
      (getUserAccessDetails oneUserBackend 0 initialDbState
        "a@acme.com" false).1 ∧
    (getUserAccessDetails oneUserBackend 0 initialDbState
        "a@acme.com" false).2.userBackendCalls = 1 ∧
    (getUserAccessDetails oneUserBackend 0 initialDbState
        "a@acme.com" false).2.companyBackendCalls = 1 ∧
    (getUserAccessDetails oneUserBackend 10
        (getUserAccessDetails oneUserBackend 0 initialDbState
          "a@acme.com" false).2
        "a@acme.com" false).2.userBackendCalls = 1 ∧
    (getUserAccessDetails oneUserBackend 10
        (getUserAccessDetails oneUserBackend 0 initialDbState
          "a@acme.com" false).2
        "a@acme.com" false).2.companyBackendCalls = 2 := by
  refine ⟨by decide, by decide, by decide, by decide, by decide, by decide⟩

/-- C4 (amended): once a cached-mode resolve succeeds and its user cache
entry is still valid, a second cached-mode resolve returns the structurally
identical bundle and issues no second user-lookup backend call - but the
uncached company lookup hits the backend exactly once more. -/
theorem C4_amended_cached_resolve :
    ∀ (b : Backend) (now now' : Nat) (st : DbState) (email : String)
      (d : AccessDetails),
      (getUserAccessDetails b now st email false).1 = some d →
      (cacheGet (getUserAccessDetails b now st email false).2.cache now'
        (userCacheKey email)).isSome = true →
      (getUserAccessDetails b now'
          (getUserAccessDetails b now st email false).2 email false).1 =
        some d ∧
      (getUserAccessDetails b now'
          (getUserAccessDetails b now st email false).2 email
          false).2.userBackendCalls =
        (getUserAccessDetails b now st email false).2.userBackendCalls ∧
      (getUserAccessDetails b now'
          (getUserAccessDetails b now st email false).2 email
          false).2.companyBackendCalls =
        (getUserAccessDetails b now st email false).2.companyBackendCalls +
          1 := by
  intro b now now' st email d h1 h2
  by_cases he : email = ""
  · rw [show getUserAccessDetails b now st email false = (none, st) by
      simp [getUserAccessDetails, getUserByEmail, he]] at h1
    simp at h1
  rcases hu : getUserByEmail b now st email false with ⟨uo, stu⟩
  rcases uo with _ | u
  · rw [show getUserAccessDetails b now st email false = (none, stu) by
      simp [getUserAccessDetails, hu]] at h1
    simp at h1
  rcases hc : getCompanyById b stu u.company_id with ⟨co, st2⟩
  rcases co with _ | c
  · rw [show getUserAccessDetails b now st email false = (none, st2) by
      simp [getUserAccessDetails, hu, hc]] at h1
    simp at h1
  have hres : getUserAccessDetails b now st email false =
      (some { userId := u.id, companyId := c.company_id,
              assistantId := c.assistant_id, role := u.role,
              status := c.status }, st2) := by
    simp [getUserAccessDetails, hu, hc]
  rw [hres] at h1 h2 ⊢
  simp only at h2
  have hd : d = { userId := u.id, companyId := c.company_id,
                  assistantId := c.assistant_id, role := u.role,
                  status := c.status } := by
    simpa using h1.symm
  obtain ⟨hcache2, huser2, hcomp2⟩ := getCompanyById_state b stu u.company_id
  rw [hc] at hcache2 huser2 hcomp2
  simp only at hcache2 huser2 hcomp2
  obtain ⟨expiry, hentry⟩ := getUserByEmail_caches b now st email u stu hu
  have hentry2 : st2.cache (userCacheKey email) = some (u, expiry) := by
    rw [hcache2, hentry]
  have hhit : cacheGet st2.cache now' (userCacheKey email) = some u :=
    cacheGet_of_entry st2.cache now' (userCacheKey email) u expiry hentry2 h2
  have hsecondUser : getUserByEmail b now' st2 email false = (some u, st2) :=
    getUserByEmail_cache_hit b now' st2 email u he hhit
  have hbc : b.companies u.company_id = LookupResult.found c := by
    have hfst := getCompanyById_fst b stu u.company_id
    rw [hc] at hfst
    rcases hb : b.companies u.company_id with c' | _ | _ <;>
      rw [hb] at hfst <;> simp at hfst
    rw [hfst]
  rcases hc2 : getCompanyById b st2 u.company_id with ⟨co2, st3⟩
  have hfst2 := getCompanyById_fst b st2 u.company_id
  rw [hc2, hbc] at hfst2
  simp only at hfst2
  subst hfst2
  have hres2 : getUserAccessDetails b now' st2 email false =
      (some { userId := u.id, companyId := c.company_id,
              assistantId := c.assistant_id, role := u.role,
              status := c.status }, st3) := by
    simp [getUserAccessDetails, hsecondUser, hc2]
  obtain ⟨_, huser3, hcomp3⟩ := getCompanyById_state b st2 u.company_id
  rw [hc2] at huser3 hcomp3
  simp only at huser3 hcomp3
  rw [hres2, hd]
  exact ⟨rfl, huser3, hcomp3⟩

/-- Witness for the amended C4 statement on the concrete one-user backend:
second resolve at t = 10 after a first resolve at t = 0. -/
theorem C4_amended_witness :
    (getUserAccessDetails oneUserBackend 10
        (getUserAccessDetails oneUserBackend 0 initialDbState
          "a@acme.com" false).2
        "a@acme.com" false).1 =
      some { userId := "u1", companyId := "acme", assistantId := "asst_123",
             role := "user", status := "active" } ∧
    (getUserAccessDetails oneUserBackend 10
        (getUserAccessDetails oneUserBackend 0 initialDbState
          "a@acme.com" false).2
        "a@acme.com" false).2.userBackendCalls =
      (getUserAccessDetails oneUserBackend 0 initialDbState
        "a@acme.com" false).2.userBackendCalls ∧
    (getUserAccessDetails oneUserBackend 10
        (getUserAccessDetails oneUserBackend 0 initialDbState
          "a@acme.com" false).2
        "a@acme.com" false).2.companyBackendCalls =
      (getUserAccessDetails oneUserBackend 0 initialDbState
        "a@acme.com" false).2.companyBackendCalls + 1 :=
  C4_amended_cached_resolve oneUserBackend 0 10 initialDbState "a@acme.com"
    { userId := "u1", companyId := "acme", assistantId := "asst_123",
      role := "user", status := "active" }
    (by decide) (by decide)

/-! ## Endpoint discovery (`3-calendar.gs`)

`DatabaseManager.makeApiRequest` (lines 345-418) returns the parsed body
when the HTTP code is below 400 and otherwise throws
`` `API Error (${code}): ...` ``; any other exception (fetch failure, JSON
parse error) carries no such code.  `discoverEndpoints` (lines 1497-1543)
probes each path of a fixed list and classifies the outcome;
`autoDiscoverApi` (lines 1602-1739) picks, per logical operation, the first
candidate whose probe result exists (or reported 401/403), probes
parametrized patterns for the two templated operations, and on an internal
exception falls back to partial results or - when nothing at all was
discovered - a hardcoded endpoint map. -/

/-- Outcome of one `makeApiRequest` probe. -/
inductive ProbeOutcome where
  /-- HTTP code below 400 and the body parsed: the request returns. -/
  | ok
  /-- HTTP code ≥ 400: the request throws `API Error (code): ...`. -/
  | apiError (code : Nat)
  /-- an exception without the `API Error (code)` shape. -/
  | otherError
  deriving DecidableEq, Repr

/-- What `discoverEndpoints` records per probed path: the `exists` flag and
the parsed status code when the error message carried one. -/
structure ProbeInfo where
  existsFlag : Bool
  statusCode : Option Nat
  deriving DecidableEq, Repr

/-- The classification inside the try/catch of `discoverEndpoints`: success ⇒
exists; `API Error (code)` ⇒ exists unless the code is 404; anything else
⇒ absent. -/
def classifyProbe : ProbeOutcome → ProbeInfo
  | ProbeOutcome.ok => { existsFlag := true, statusCode := none }
  | ProbeOutcome.apiError code =>
    { existsFlag := code != 404, statusCode := some code }
  | ProbeOutcome.otherError => { existsFlag := false, statusCode := none }

/-- List `pathsToTry` (lines 1507-1526). -/
def pathsToTry : List String :=
  ["/api", "/api/users", "/api/user", "/api/auth", "/api/companies",
   "/api/company", "/api/v1", "/api/v1/users", "/api/v1/auth", "/auth",
   "/users", "/login", "/signin", "/companies", "/api/ping", "/api/health",
   "/api/info", "/api/status"]

/-- Model of `discoverEndpoints()`: a result for each path in `pathsToTry`,
nothing
for any other path. -/
def discoverEndpoints (backend : String → ProbeOutcome) :
    String → Option ProbeInfo := fun path =>
  if path ∈ pathsToTry then some (classifyProbe (backend path)) else none

/-- The per-operation selection loop of `autoDiscoverApi`: the first
candidate with a recorded result whose `exists` flag is set or whose
status is `401`/`403`. -/
def selectCandidate (results : String → Option ProbeInfo)
    (candidates : List String) : Option String :=
  candidates.find? (fun ep =>
    match results ep with
    | some info =>
      info.existsFlag || info.statusCode == some 401 ||
        info.statusCode == some 403
    | none => false)

/-- List `potentialLoginEndpoints` (lines 1634-1644). -/
def potentialLoginEndpoints : List String :=
  ["/api/auth/login", "/api/login", "/api/account/login", "/api/user/login",
   "/api/users/login", "/api/auth/signin", "/api/signin", "/auth/login",
   "/login"]

/-- List `potentialUsersEndpoints` (lines 1657-1662). -/
def potentialUsersEndpoints : List String :=
  ["/api/users", "/api/user", "/api/v1/users", "/users"]

/-- List `potentialCompaniesEndpoints` (lines 1676-1681). -/
def potentialCompaniesEndpoints : List String :=
  ["/api/companies", "/api/company", "/api/v1/companies", "/companies"]

/-- Phase-4 pattern probe: a live `makeApiRequest` that returns, or throws
with a 401/403 code, marks the pattern discovered. -/
def probeOkOrAuth : ProbeOutcome → Bool
  | ProbeOutcome.ok => true
  | ProbeOutcome.apiError code => code == 401 || code == 403
  | ProbeOutcome.otherError => false

/-- List `emailPatterns` probed under the discovered users base (lines
1696-1703). -/
def emailPatterns (usersBase : String) : List String :=
  [usersBase ++ "/by-email/test@example.com",
   usersBase ++ "/email/test@example.com",
   usersBase ++ "/find/test@example.com",
   usersBase ++ "/lookup/test@example.com",
   usersBase ++ "?email=test@example.com",
   usersBase ++ "/exists/test@example.com"]

/-- List `domainPatterns` probed under the discovered companies base (lines
1727-1733). -/
def domainPatterns (companiesBase : String) : List String :=
  [companiesBase ++ "/domain/example.com",
   companiesBase ++ "/by-domain/example.com",
   companiesBase ++ "/find/example.com",
   companiesBase ++ "/lookup/example.com",
   companiesBase ++ "?domain=example.com"]

/-- Structure `discoveredEndpoints` of `autoDiscoverApi`. -/
structure EndpointMap where
  login : Option String
  users : Option String
  user_by_email : Option String
  companies : Option String
  company_by_domain : Option String
  deriving DecidableEq, Repr

/-- Phases 1-4 of `autoDiscoverApi` (the try block): probe, select per
operation, then generalize the first live parametrized pattern back into a
`{param}` template. -/
def autoDiscoverBody (backend : String → ProbeOutcome) : EndpointMap :=
  let results := discoverEndpoints backend
  let loginSel := selectCandidate results potentialLoginEndpoints
  let usersSel := selectCandidate results potentialUsersEndpoints
  let companiesSel := selectCandidate results potentialCompaniesEndpoints
  let userByEmailSel :=
    match usersSel with
    | none => none
    | some base =>
      ((emailPatterns base).find? (fun pat => probeOkOrAuth (backend pat))
        ).map (fun pat => pat.replace "test@example.com" "{email}")
  let companyByDomainSel :=
    match companiesSel with
    | none => none
    | some base =>
      ((domainPatterns base).find? (fun pat => probeOkOrAuth (backend pat))
        ).map (fun pat => pat.replace "example.com" "{domain}")
  { login := loginSel, users := usersSel, user_by_email := userByEmailSel,
    companies := companiesSel, company_by_domain := companyByDomainSel }

/-- The hardcoded fallback map (lines 1727-1735 of the catch block). -/
def fallbackEndpoints : EndpointMap :=
  { login := some "/api/auth/login", users := some "/api/users",
    user_by_email := some "/api/users/by-email/{email}",
    companies := some "/api/companies",
    company_by_domain := some "/api/companies/domain/{domain}" }

/-- Test `!Object.values(discoveredEndpoints).some(v => v !== null)`. -/
def endpointMapAllNull (m : EndpointMap) : Bool :=
  m.login.isNone && m.users.isNone && m.user_by_email.isNone &&
    m.companies.isNone && m.company_by_domain.isNone

/-- Model of `autoDiscoverApi` around its try/catch: `Except.ok m` models the try
block completing with map `m` (= `autoDiscoverBody backend`);
`Except.error partResults` models an unexpected runtime exception aborting
the block while `discoveredEndpoints` held `partResults`.  Only in the
exceptional case, and only with nothing discovered, is the hardcoded
fallback installed. -/
def autoDiscoverApi (body : Except EndpointMap EndpointMap) : EndpointMap :=
  match body with
  | Except.ok m => m
  | Except.error partResults =>
    if endpointMapAllNull partResults then fallbackEndpoints
    else partResults

/-- C5: probe classification marks 2xx (`ok`) and 401/403 responses as
existing and 404 as absent; per-operation selection picks exactly the
first probed candidate whose classification is `exists` (401/403 imply the
flag, so the extra status disjuncts add nothing); and the scenario
`/api/users → 403`, everything else `404` resolves the users operation to
`/api/users`. -/
theorem C5_discovery_classification_first_wins :
    (classifyProbe ProbeOutcome.ok).existsFlag = true ∧
    (classifyProbe (ProbeOutcome.apiError 401)).existsFlag = true ∧
    (classifyProbe (ProbeOutcome.apiError 403)).existsFlag = true ∧
    (classifyProbe (ProbeOutcome.apiError 404)).existsFlag = false ∧
    (∀ (backend : String → ProbeOutcome) (candidates : List String),
      selectCandidate (discoverEndpoints backend) candidates =
        candidates.find? (fun ep =>
          decide (ep ∈ pathsToTry) &&
            (classifyProbe (backend ep)).existsFlag)) ∧
    selectCandidate
        (discoverEndpoints (fun p =>
          if p = "/api/users" then ProbeOutcome.apiError 403
          else ProbeOutcome.apiError 404))
        potentialUsersEndpoints = some "/api/users" := by
  refine ⟨rfl, rfl, rfl, rfl, ?_, by decide⟩
  intro backend candidates
  unfold selectCandidate
  congr 1
  funext ep
  by_cases hmem : ep ∈ pathsToTry
  · cases hb : backend ep with
    | ok => simp [discoverEndpoints, hmem, hb, classifyProbe]
    | apiError code =>
      simp only [discoverEndpoints, if_pos hmem, hb, classifyProbe]
      by_cases h404 : code = 404
      · subst h404
        simp
      · have hne : (code != 404) = true := by simp [h404]
        simp [hmem, hne]
    | otherError => simp [discoverEndpoints, hmem, hb, classifyProbe]
  · simp [discoverEndpoints, hmem]

/-- Counterexample to C8 as stated: against a backend answering 404 to
every probe, discovery completes normally having found no concrete path
for any operation, yet the registry keeps the all-null map - the
hardcoded fallback map is not used. -/
theorem C8_counterexample_empty_discovery_keeps_nulls :
    autoDiscoverApi
        (Except.ok (autoDiscoverBody (fun _ => ProbeOutcome.apiError 404))) =
      { login := none, users := none, user_by_email := none,
        companies := none, company_by_domain := none } ∧
    ({ login := none, users := none, user_by_email := none,
       companies := none, company_by_domain := none } : EndpointMap) ≠
      fallbackEndpoints := by
  exact ⟨by decide, by decide⟩

/-- C8 (amended): the hardcoded fallback map is installed exactly when the
discovery body aborts with an exception and nothing had been discovered;
an exception with partial results keeps the partial map, and a normally
completed discovery keeps its result even when it is entirely empty. -/
theorem C8_fallback_only_after_exception :
    (∀ m : EndpointMap, endpointMapAllNull m = true →
      autoDiscoverApi (Except.error m) = fallbackEndpoints) ∧
    (∀ m : EndpointMap, endpointMapAllNull m = false →
      autoDiscoverApi (Except.error m) = m) ∧
    (∀ m : EndpointMap, autoDiscoverApi (Except.ok m) = m) := by
  refine ⟨?_, ?_, fun m => rfl⟩
  · intro m h
    simp [autoDiscoverApi, h]
  · intro m h
    simp [autoDiscoverApi, h]

/-- Witness for C8: the all-null partial map after a crash yields the
fallback map; a partial map with a discovered users path survives a
crash unchanged. -/
theorem C8_fallback_witness :
    autoDiscoverApi
        (Except.error
          { login := none, users := none, user_by_email := none,
            companies := none, company_by_domain := none }) =
      fallbackEndpoints ∧
    autoDiscoverApi
        (Except.error
          { login := none, users := some "/api/users",
            user_by_email := none, companies := none,
            company_by_domain := none }) =
      { login := none, users := some "/api/users", user_by_email := none,
        companies := none, company_by_domain := none } :=
  ⟨C8_fallback_only_after_exception.1 _ (by decide),
    C8_fallback_only_after_exception.2.1 _ (by decide)⟩

end Voxerion
